import Mathlib

/-
  Shallow embedding of `top_games_for_number_of_players.py`.

  The script fetches pages of a ranked board-game listing, fetches per-game
  XML statistics, derives best/recommended player-count sets, and prints one
  report row per game suitable for the requested player count.

  Network traffic is modelled by explicit inputs: `get_game_stats` consumes
  the list of successive responses the statistics endpoint would return for
  one game (the Python loop re-fetches the same URL each iteration), and the
  pipeline takes the listing pages and the per-game response streams as
  functions.  Python exceptions and `exit(1)` are modelled with `Except`.
-/

deriving instance DecidableEq for Except

namespace BGG

/-- Outcomes that abort the Python process: uncaught exceptions
(`AttributeError`, `KeyError`, `ValueError`, `IndexError`) and the explicit
`exit(1)` taken after printing "Unexpected exception" plus the raw payload
(`unexpectedMessage`). `exhausted` is a model artifact: the finite list of
modelled responses ran out while the retry loop would have kept polling. -/
inductive PyError where
  | attributeError
  | keyError (k : String)
  | valueError
  | indexError
  | unexpectedMessage
  | exhausted
deriving DecidableEq

/-- Digit-string evaluation used by `pyInt`; `none` when the list is empty or
holds a non-digit character. -/
def pyDigits (cs : List Char) : Option Nat :=
  if cs.isEmpty then none
  else if cs.all Char.isDigit then
    some (cs.foldl (fun a c => a * 10 + (c.toNat - 48)) 0)
  else none

/-- Python `int(...)` on the character data of a string: an optional sign
followed by digits.  (Surrounding whitespace and underscore separators,
which Python also accepts, never occur in the descriptors at issue.) -/
def pyInt : List Char → Option Int
  | '-' :: rest => (pyDigits rest).map (fun n => -(n : Int))
  | '+' :: rest => (pyDigits rest).map (fun n => (n : Int))
  | cs => (pyDigits cs).map (fun n => (n : Int))

/-- Python `range(a, b)` over integers, as the list `[a, a+1, ..., b-1]`. -/
def pyRange (a b : Int) : List Int :=
  (List.range (b - a).toNat).map (fun i : Nat => a + (i : Int))

/-- Lines 84-88: parse the `numplayers` descriptor.  `count_str[-1]` on an
empty string raises `IndexError`; a trailing `'+'` yields
`range(int(count_str[:-1]), 101)`; otherwise `[int(count_str)]`; a failing
`int(...)` raises `ValueError`. -/
def parseCounts (s : String) : Except PyError (List Int) :=
  match s.data.getLast? with
  | none => .error .indexError
  | some c =>
    if c = '+' then
      match pyInt s.data.dropLast with
      | some n => .ok (pyRange n 101)
      | none => .error .valueError
    else
      match pyInt s.data with
      | some n => .ok [n]
      | none => .error .valueError

/-- One `<result>` child of a player-count entry: attributes `value`
(category label) and `numvotes` (decimal string, parsed by `int(...)`). -/
structure VoteResult where
  value : String
  numvotes : String
deriving DecidableEq

/-- Python dict assignment `votes[name] = numvotes` on an association list:
replace the value at an existing key, else append the new pair. -/
def dictInsert (d : List (String × Int)) (k : String) (v : Int) :
    List (String × Int) :=
  if d.any (fun p => p.1 = k) then
    d.map (fun p => if p.1 = k then (k, v) else p)
  else d ++ [(k, v)]

/-- Lines 89-93: build the `votes` dict from the entry's vote results. -/
def buildVotes : List VoteResult → List (String × Int) →
    Except PyError (List (String × Int))
  | [], d => .ok d
  | v :: vs, d =>
    match pyInt v.numvotes.data with
    | none => .error .valueError
    | some n => buildVotes vs (dictInsert d v.value n)

/-- Python `max(votes.values())`; only ever applied to a non-empty dict in
the source (a lookup of "Best" has already succeeded), so the `[]` case is
unreachable there. -/
def maxValues : List (String × Int) → Int
  | [] => 0
  | p :: ps => ps.foldl (fun m q => max m q.2) p.2

inductive Rating where
  | best
  | recommended
  | unrated
deriving DecidableEq

/-- Lines 94-97 viewed as a classifier: `votes["Best"]` is a strict lookup
(`KeyError` when absent); if it equals the maximum the entry is best;
otherwise `votes["Recommended"]` is looked up strictly and compared; the
`if/elif` with no `else` leaves the remaining case unrated. -/
def classify (votes : List (String × Int)) : Except PyError Rating :=
  match votes.lookup "Best" with
  | none => .error (.keyError "Best")
  | some vb =>
    if vb = maxValues votes then .ok .best
    else
      match votes.lookup "Recommended" with
      | none => .error (.keyError "Recommended")
      | some vr =>
        if vr = maxValues votes then .ok .recommended else .ok .unrated

/-- One player-count entry (`numplayers` attribute plus vote results). -/
structure PCEntry where
  numplayers : String
  results : List VoteResult
deriving DecidableEq

/-- Lines 83-97 for a single entry: parse the descriptor, build the vote
dict, and merge the counts into the best or recommended set (or neither)
according to the classification. -/
def processEntry (e : PCEntry) (best recommended : Finset Int) :
    Except PyError (Finset Int × Finset Int) :=
  match parseCounts e.numplayers with
  | .error er => .error er
  | .ok counts =>
    match buildVotes e.results [] with
    | .error er => .error er
    | .ok votes =>
      match classify votes with
      | .error er => .error er
      | .ok .best => .ok (best ∪ counts.toFinset, recommended)
      | .ok .recommended => .ok (best, recommended ∪ counts.toFinset)
      | .ok .unrated => .ok (best, recommended)

/-- The `for num_players in nums` loop, threading the two sets. -/
def processEntries : List PCEntry → Finset Int → Finset Int →
    Except PyError (Finset Int × Finset Int)
  | [], b, r => .ok (b, r)
  | e :: es, b, r =>
    match processEntry e b r with
    | .error er => .error er
    | .ok (b', r') => processEntries es b' r'

/-- One XML response from the statistics endpoint, reduced to the parts the
script reads: `nums` is the element with attribute
`name="suggested_numplayers"` (with its child entries) when present;
`message` is the text of the top-level `message` element when that element
is present; `averageweight` is the `value` attribute of the `averageweight`
element when present. -/
structure Response where
  nums : Option (List PCEntry)
  message : Option String
  averageweight : Option String
deriving DecidableEq

/-- The result of `get_game_stats`: best counts, recommended counts, and
the weight.  The weight is kept as the raw attribute string; the script's
`float(...)` conversion and `"%.2f"` formatting concern no claim, and IEEE
floating point is out of scope for the embedding. -/
structure PlayerCountStats where
  bestCounts : Finset Int
  recommendedCounts : Finset Int
  weight : String
deriving DecidableEq

/-- Truthiness of `nums` in `while not nums` / `if not nums`:
`ElementTree.find` returns `None` when the element is absent, and an
`Element` with no children is also falsy. -/
def truthyNums : Option (List PCEntry) → Bool
  | none => false
  | some es => !es.isEmpty

/-- Lines 82-98, reached once the loop exits: `average_weight_elem.attrib`
raises `AttributeError` when the element was not found (the missing-`value`
`KeyError` is collapsed into the same absent case), then the entries are
processed starting from two empty sets. -/
def parseResponse (resp : Response) : Except PyError PlayerCountStats :=
  match resp.averageweight with
  | none => .error .attributeError
  | some w =>
    match processEntries (resp.nums.getD []) ∅ ∅ with
    | .error er => .error er
    | .ok (b, r) => .ok ⟨b, r, w⟩

/-- Lines 65-98: the retry loop, consuming successive responses for one
game.  When `nums` is truthy the response is parsed and returned; otherwise
`tree.find("message").text` is read (`AttributeError` when the `message`
element is absent); the exact text "Rate limit exceeded." sleeps and
retries; any other text prints the payload and exits with status 1. -/
def get_game_stats : List Response → Except PyError PlayerCountStats
  | [] => .error .exhausted
  | resp :: rest =>
    if truthyNums resp.nums then parseResponse resp
    else
      match resp.message with
      | none => .error .attributeError
      | some t =>
        if t = "Rate limit exceeded." then get_game_stats rest
        else .error .unexpectedMessage

/-- One data row of the listing table, reduced to the four pieces the row
helpers read (a well-formed row, in which BeautifulSoup finds the rank
cell, the primary link and the year span). -/
structure HtmlRow where
  rank_text : String
  primary_href : String
  primary_text : String
  span_text : String
deriving DecidableEq

structure Game where
  bgg_rank : String
  name : String
  year : String
  bgg_id : String
deriving DecidableEq

/-- Line 120: `href.split("/")[2]`.  (On a well-formed href
`/boardgame/{id}/{slug}` the list has four segments; the default only
papers over the short-href `IndexError`, which no claim concerns.) -/
def get_bgg_id (row : HtmlRow) : String :=
  ((row.primary_href.splitOn "/").getD 2 "")

/-- Line 124: the rank cell's text, stripped. -/
def get_bgg_rank (row : HtmlRow) : String := row.rank_text.trim

/-- Line 128: `getText()[1:-1]`, dropping the surrounding brackets. -/
def get_year (row : HtmlRow) : String := (row.span_text.drop 1).dropRight 1

/-- Line 132: the primary link's text, stripped. -/
def get_name (row : HtmlRow) : String := row.primary_text.trim

/-- Lines 114-115: the `Game(...)` built from one row. -/
def mkGame (row : HtmlRow) : Game :=
  ⟨get_bgg_rank row, get_name row, get_year row, get_bgg_id row⟩

/-- Lines 110-116: the listing page reduced to `bs.find("table")`'s rows
(`none` when the page has no table, in which case `.findAll` on `None`
raises `AttributeError`); `[1:]` skips the header row and the remaining
rows are turned into games in order. -/
def get_page_of_games : Option (List HtmlRow) → Except PyError (List Game)
  | none => .error .attributeError
  | some rows => .ok ((rows.drop 1).map mkGame)

/-- One printed output line of `main`, decomposed into its fields. -/
structure ReportRow where
  rating : String
  bgg_rank : String
  name : String
  year : String
  weight : String
  bgg_id : String
deriving DecidableEq

/-- Lines 44-46: `"BEST" if num_players in best_counts else "RECOMMENDED"
if num_players in recommended_counts else None`. -/
def ratingFor (num_players : Int) (s : PlayerCountStats) : Option String :=
  if num_players ∈ s.bestCounts then some "BEST"
  else if num_players ∈ s.recommendedCounts then some "RECOMMENDED"
  else none

/-- Lines 44-50: the row printed for a game, when any. -/
def rowFor (num_players : Int) (g : Game) (s : PlayerCountStats) :
    Option ReportRow :=
  (ratingFor num_players s).map
    (fun rat => ⟨rat, g.bgg_rank, g.name, g.year, s.weight, g.bgg_id⟩)

/-- Lines 42-50: the inner loop over one page's games.  `api` gives the
response stream the statistics endpoint would serve for a given game id. -/
def processGames (num_players : Int) (api : String → List Response) :
    List Game → Except PyError (List ReportRow)
  | [] => .ok []
  | g :: gs =>
    match get_game_stats (api g.bgg_id) with
    | .error er => .error er
    | .ok s =>
      match processGames num_players api gs with
      | .error er => .error er
      | .ok rest =>
        match rowFor num_players g s with
        | some row => .ok (row :: rest)
        | none => .ok rest

/-- Lines 40-50: the outer loop, over a list of page numbers.  `pages`
gives the listing page served for each page number. -/
def runPages (num_players : Int) (pages : Nat → Option (List HtmlRow))
    (api : String → List Response) :
    List Nat → Except PyError (List ReportRow)
  | [] => .ok []
  | p :: ps =>
    match get_page_of_games (pages p) with
    | .error er => .error er
    | .ok games =>
      match processGames num_players api games with
      | .error er => .error er
      | .ok rows =>
        match runPages num_players pages api ps with
        | .error er => .error er
        | .ok rest => .ok (rows ++ rest)

/-- `main` after argument parsing: `for page in range(1, num_pages + 1)`,
collecting the printed rows in order. -/
def main_model (num_players : Int) (num_pages : Nat)
    (pages : Nat → Option (List HtmlRow)) (api : String → List Response) :
    Except PyError (List ReportRow) :=
  runPages num_players pages api (List.range' 1 num_pages)

/-- Spec-side description of the pipeline output (spec sections 4.4 and 2):
concatenate the games of the visited pages in page-then-row order and emit
one row per game whose target count is in `bestCounts` (BEST) or, failing
that, in `recommendedCounts` (RECOMMENDED), with no sorting, deduplication
or cross-page aggregation. -/
def pipelineSpec (num_players : Int) (gamesByPage : List (List Game))
    (statsOf : Game → PlayerCountStats) : List ReportRow :=
  (gamesByPage.foldr (fun gs acc => gs ++ acc) []).filterMap
    (fun g => rowFor num_players g (statsOf g))

theorem mem_pyRange (a b q : Int) : q ∈ pyRange a b ↔ a ≤ q ∧ q < b := by
  simp only [pyRange, List.mem_map, List.mem_range]
  constructor
  · rintro ⟨i, hi, rfl⟩
    omega
  · rintro ⟨h1, h2⟩
    exact ⟨(q - a).toNat, by omega, by omega⟩

theorem classify_eq_of_lookups (votes : List (String × Int)) (vb vr : Int)
    (hb : votes.lookup "Best" = some vb)
    (hr : votes.lookup "Recommended" = some vr) :
    classify votes =
      (if vb = maxValues votes then .ok .best
       else if vr = maxValues votes then .ok .recommended
       else .ok .unrated) := by
  simp only [classify, hb]
  by_cases h1 : vb = maxValues votes
  · simp [h1]
  · simp only [if_neg h1, hr]

theorem processEntry_eq_of_classify (e : PCEntry) (b r : Finset Int)
    (counts : List Int) (votes : List (String × Int)) (rat : Rating)
    (hc : parseCounts e.numplayers = .ok counts)
    (hv : buildVotes e.results [] = .ok votes)
    (hcl : classify votes = .ok rat) :
    processEntry e b r = .ok (match rat with
      | .best => (b ∪ counts.toFinset, r)
      | .recommended => (b, r ∪ counts.toFinset)
      | .unrated => (b, r)) := by
  simp only [processEntry, hc, hv, hcl]
  cases rat <;> rfl

theorem processEntry_counts_error (e : PCEntry) (b r : Finset Int)
    (er : PyError) (hc : parseCounts e.numplayers = .error er) :
    processEntry e b r = .error er := by
  simp only [processEntry, hc]

theorem processEntry_votes_error (e : PCEntry) (b r : Finset Int)
    (counts : List Int) (er : PyError)
    (hc : parseCounts e.numplayers = .ok counts)
    (hv : buildVotes e.results [] = .error er) :
    processEntry e b r = .error er := by
  simp only [processEntry, hc, hv]

theorem processEntry_classify_error (e : PCEntry) (b r : Finset Int)
    (counts : List Int) (votes : List (String × Int)) (er : PyError)
    (hc : parseCounts e.numplayers = .ok counts)
    (hv : buildVotes e.results [] = .ok votes)
    (hcl : classify votes = .error er) :
    processEntry e b r = .error er := by
  simp only [processEntry, hc, hv, hcl]

/-- C9: when the vote tally lacks a "Best" category, classification fails
loudly with the missing-key error KeyError "Best" and returns no
classification at all, rather than defaulting the "Best" count to zero. -/
theorem C9_missing_best_fails_loudly (votes : List (String × Int))
    (h : votes.lookup "Best" = none) :
    classify votes = .error (.keyError "Best")
    ∧ ∀ rat : Rating, classify votes ≠ .ok rat := by
  have hc : classify votes = .error (.keyError "Best") := by
    simp only [classify, h]
  exact ⟨hc, fun rat hr => by rw [hc] at hr; exact Except.noConfusion hr⟩

/-- Witness for C9 at the concrete tally [("Recommended", 3)]. -/
theorem C9_missing_best_fails_loudly_witness :
    classify [("Recommended", 3)] = .error (.keyError "Best")
    ∧ ∀ rat : Rating, classify [("Recommended", 3)] ≠ .ok rat :=
  C9_missing_best_fails_loudly [("Recommended", 3)] (by decide)

/-- C3 counterexample: on the tally [("Best", 1), ("Not Recommended", 5)],
where "Best" is below the maximum and "Recommended" is absent, the code
raises KeyError "Recommended" instead of classifying the entry unrated, so
the claim's final "otherwise the entry is unrated" fails as stated. -/
theorem C3_counterexample :
    classify [("Best", 1), ("Not Recommended", 5)]
        = .error (.keyError "Recommended")
    ∧ classify [("Best", 1), ("Not Recommended", 5)] ≠ .ok .unrated :=
  ⟨by decide, by decide⟩

/-- C3 amended: for every vote tally containing both a "Best" and a
"Recommended" entry, classification returns BEST exactly when the "Best"
count equals the maximum vote count over all categories present; otherwise
it returns RECOMMENDED exactly when the "Recommended" count equals that
maximum; otherwise the entry is unrated.  (When "Best" is below the
maximum and "Recommended" is absent, the code instead fails with
KeyError "Recommended", per the counterexample.) -/
theorem C3_classification_characterized (votes : List (String × Int))
    (vb vr : Int) (hb : votes.lookup "Best" = some vb)
    (hr : votes.lookup "Recommended" = some vr) :
    (classify votes = .ok .best ↔ vb = maxValues votes)
    ∧ (vb ≠ maxValues votes →
        (classify votes = .ok .recommended ↔ vr = maxValues votes))
    ∧ (vb ≠ maxValues votes → vr ≠ maxValues votes →
        classify votes = .ok .unrated) := by
  rw [classify_eq_of_lookups votes vb vr hb hr]
  by_cases h1 : vb = maxValues votes
  · simp [h1]
  · by_cases h2 : vr = maxValues votes <;> simp [h1, h2]

/-- Witness for C3 (amended) at the tally [("Best", 2), ("Recommended", 1)]. -/
theorem C3_classification_characterized_witness :
    (classify [("Best", 2), ("Recommended", 1)] = .ok .best
      ↔ (2 : Int) = maxValues [("Best", 2), ("Recommended", 1)])
    ∧ ((2 : Int) ≠ maxValues [("Best", 2), ("Recommended", 1)] →
        (classify [("Best", 2), ("Recommended", 1)] = .ok .recommended
          ↔ (1 : Int) = maxValues [("Best", 2), ("Recommended", 1)]))
    ∧ ((2 : Int) ≠ maxValues [("Best", 2), ("Recommended", 1)] →
        (1 : Int) ≠ maxValues [("Best", 2), ("Recommended", 1)] →
        classify [("Best", 2), ("Recommended", 1)] = .ok .unrated) :=
  C3_classification_characterized [("Best", 2), ("Recommended", 1)] 2 1
    (by decide) (by decide)

/-- C1 counterexample: an entry whose tally has "Best" and "Recommended"
tied with each other at the maximum vote count (5 votes each) is
classified best and its count is added to bestCounts, so it is neither
unrated nor kept out of both sets as the claim states. -/
theorem C1_counterexample :
    classify [("Best", 5), ("Recommended", 5)] = .ok .best
    ∧ processEntry ⟨"4", [⟨"Best", "5"⟩, ⟨"Recommended", "5"⟩]⟩ ∅ ∅
        = .ok ({4}, ∅)
    ∧ processEntry ⟨"4", [⟨"Best", "5"⟩, ⟨"Recommended", "5"⟩]⟩ ∅ ∅
        ≠ .ok (∅, ∅) :=
  ⟨by decide, by decide, by decide⟩

/-- C1 amended: an entry whose tally has "Best" and "Recommended" both
strictly below some other category's maximum is classified unrated and its
count is added to neither set; but an entry whose "Best" count is tied at
the maximum — in particular tied with "Recommended" — is classified best
and its counts are added to bestCounts. -/
theorem C1_below_max_unrated_tie_best (e : PCEntry) (b r : Finset Int)
    (counts : List Int) (votes : List (String × Int)) (vb vr : Int)
    (hc : parseCounts e.numplayers = .ok counts)
    (hv : buildVotes e.results [] = .ok votes)
    (hb : votes.lookup "Best" = some vb)
    (hr : votes.lookup "Recommended" = some vr) :
    (vb < maxValues votes → vr < maxValues votes →
      processEntry e b r = .ok (b, r))
    ∧ (vb = maxValues votes →
      processEntry e b r = .ok (b ∪ counts.toFinset, r)) := by
  have hcl := classify_eq_of_lookups votes vb vr hb hr
  constructor
  · intro h1 h2
    rw [if_neg (by omega), if_neg (by omega)] at hcl
    exact processEntry_eq_of_classify e b r counts votes .unrated hc hv hcl
  · intro h1
    rw [if_pos h1] at hcl
    exact processEntry_eq_of_classify e b r counts votes .best hc hv hcl

/-- Witness for C1 (amended): the tie case at the entry
numplayers "4" with Best = Recommended = 5. -/
theorem C1_below_max_unrated_tie_best_witness :
    ((5 : Int) < maxValues [("Best", 5), ("Recommended", 5)] →
      (5 : Int) < maxValues [("Best", 5), ("Recommended", 5)] →
      processEntry ⟨"4", [⟨"Best", "5"⟩, ⟨"Recommended", "5"⟩]⟩ ∅ ∅
        = .ok (∅, ∅))
    ∧ ((5 : Int) = maxValues [("Best", 5), ("Recommended", 5)] →
      processEntry ⟨"4", [⟨"Best", "5"⟩, ⟨"Recommended", "5"⟩]⟩ ∅ ∅
        = .ok (∅ ∪ ([4] : List Int).toFinset, ∅)) :=
  C1_below_max_unrated_tie_best ⟨"4", [⟨"Best", "5"⟩, ⟨"Recommended", "5"⟩]⟩
    ∅ ∅ [4] [("Best", 5), ("Recommended", 5)] 5 5
    (by decide) (by decide) (by decide) (by decide)

/-- C8: a single player-count entry merges its derived counts into at most
one of bestCounts and recommendedCounts, never both: whenever processing
the entry succeeds, either bestCounts gains the entry's counts and
recommendedCounts is unchanged, or the reverse, or neither changes. -/
theorem C8_entry_feeds_at_most_one_set (e : PCEntry) (b r b' r' : Finset Int)
    (h : processEntry e b r = .ok (b', r')) :
    ∃ counts : List Int, parseCounts e.numplayers = .ok counts
      ∧ ((b' = b ∪ counts.toFinset ∧ r' = r)
        ∨ (b' = b ∧ r' = r ∪ counts.toFinset)
        ∨ (b' = b ∧ r' = r)) := by
  cases hc : parseCounts e.numplayers with
  | error er =>
    rw [processEntry_counts_error e b r er hc] at h
    exact absurd h (by simp)
  | ok counts =>
    cases hv : buildVotes e.results [] with
    | error er =>
      rw [processEntry_votes_error e b r counts er hc hv] at h
      exact absurd h (by simp)
    | ok votes =>
      cases hcl : classify votes with
      | error er =>
        rw [processEntry_classify_error e b r counts votes er hc hv hcl] at h
        exact absurd h (by simp)
      | ok rat =>
        rw [processEntry_eq_of_classify e b r counts votes rat hc hv hcl] at h
        refine ⟨counts, rfl, ?_⟩
        cases rat with
        | best =>
          simp only [Except.ok.injEq, Prod.mk.injEq] at h
          exact Or.inl ⟨h.1.symm, h.2.symm⟩
        | recommended =>
          simp only [Except.ok.injEq, Prod.mk.injEq] at h
          exact Or.inr (Or.inl ⟨h.1.symm, h.2.symm⟩)
        | unrated =>
          simp only [Except.ok.injEq, Prod.mk.injEq] at h
          exact Or.inr (Or.inr ⟨h.1.symm, h.2.symm⟩)

/-- C2 counterexample: the open-range descriptor "7+" is expanded to
`range(7, 101)`, so the queried player count 101, although at least the
lower bound 7, is not a member of the derived counts — the claim's "any
queried player count greater than or equal to the lower bound is a
member" fails as stated. -/
theorem C2_counterexample :
    parseCounts "7+" = .ok (pyRange 7 101)
    ∧ (7 : Int) ≤ 101
    ∧ (101 : Int) ∉ pyRange 7 101 :=
  ⟨by decide, by decide, by decide⟩

/-- C2 amended: a descriptor ending in "+" yields the integers from its
lower bound through 100 inclusive (a queried count is a member exactly
when it lies between the lower bound and 100), while a descriptor with no
"+" suffix yields exactly the single integer and is never conflated with
the open-range case. -/
theorem C2_descriptor_semantics (s : String) (n q : Int)
    (h : pyInt s.data = some n) :
    (parseCounts (s ++ "+") = .ok (pyRange n 101)
      ∧ ((q ∈ pyRange n 101) ↔ (n ≤ q ∧ q ≤ 100)))
    ∧ (∀ c : Char, s.data.getLast? = some c → c ≠ '+' →
        parseCounts s = .ok [n] ∧ ((q ∈ ([n] : List Int)) ↔ q = n)) := by
  have hdata : (s ++ "+").data = s.data ++ ['+'] := String.data_append s "+"
  refine ⟨⟨?_, ?_⟩, ?_⟩
  · simp only [parseCounts, hdata, List.getLast?_concat, List.dropLast_concat,
      h, if_true]
  · rw [mem_pyRange]
    omega
  · intro c hc hcne
    refine ⟨?_, by simp⟩
    simp only [parseCounts, hc, if_neg hcne, h]

/-- Witness for C2 (amended) at the descriptors "7+" and "7". -/
theorem C2_descriptor_semantics_witness :
    (parseCounts ("7" ++ "+") = .ok (pyRange 7 101)
      ∧ (((7 : Int) ∈ pyRange 7 101) ↔ ((7 : Int) ≤ 7 ∧ (7 : Int) ≤ 100)))
    ∧ (∀ c : Char, "7".data.getLast? = some c → c ≠ '+' →
        parseCounts "7" = .ok [(7 : Int)]
          ∧ (((7 : Int) ∈ ([(7 : Int)] : List Int)) ↔ (7 : Int) = 7)) :=
  C2_descriptor_semantics "7" 7 7 (by decide)

/-- C5: a response lacking the player-count element whose message text is
anything other than "Rate limit exceeded." causes fetchStats to stop
without retrying (the remaining responses are never consulted) and
without returning stats: it reports the payload and exits the process
with a non-zero status, modelled as the `unexpectedMessage` outcome. -/
theorem C5_fatal_on_unexpected_message (resp : Response) (t : String)
    (hn : resp.nums = none) (hm : resp.message = some t)
    (ht : t ≠ "Rate limit exceeded.") (rest : List Response) :
    get_game_stats (resp :: rest) = .error .unexpectedMessage
    ∧ ∀ s : PlayerCountStats, get_game_stats (resp :: rest) ≠ .ok s := by
  have h : get_game_stats (resp :: rest) = .error .unexpectedMessage := by
    simp only [get_game_stats, hn, hm, truthyNums]
    simp [ht]
  exact ⟨h, fun s hs => by rw [h] at hs; exact Except.noConfusion hs⟩

/-- Witness for C5 at a response carrying the message "Invalid item id". -/
theorem C5_fatal_on_unexpected_message_witness :
    get_game_stats [⟨none, some "Invalid item id", none⟩]
        = .error .unexpectedMessage
    ∧ ∀ s : PlayerCountStats,
        get_game_stats [⟨none, some "Invalid item id", none⟩] ≠ .ok s :=
  C5_fatal_on_unexpected_message ⟨none, some "Invalid item id", none⟩
    "Invalid item id" rfl rfl (by decide) []

/-- C6: fetchPage (get_page_of_games) on a well-formed listing page whose
table holds a header row followed by K data rows returns exactly K game
stubs, in the row order of the source page; on a page with no table it
raises a fatal parsing error (the AttributeError from calling findAll on
None) and never returns a sequence, empty or otherwise. -/
theorem C6_fetchPage_row_count_and_order (header : HtmlRow)
    (dataRows : List HtmlRow) :
    get_page_of_games (some (header :: dataRows)) = .ok (dataRows.map mkGame)
    ∧ (dataRows.map mkGame).length = dataRows.length
    ∧ get_page_of_games (none : Option (List HtmlRow))
        = .error .attributeError
    ∧ ∀ gs : List Game,
        get_page_of_games (none : Option (List HtmlRow)) ≠ .ok gs := by
  refine ⟨rfl, by simp, rfl, ?_⟩
  intro gs h
  exact Except.noConfusion h

/-- C10: a response in which the suggested_numplayers element is present
but holds zero child entries behaves exactly like a response lacking the
element — the childless element tests as false, so the loop inspects the
"message" element instead (retrying on the rate-limit text), and no stats
value (in particular no empty best/recommended sets) is returned from
such a response. -/
theorem C10_childless_element_acts_absent (m : Option String)
    (aw aw' : Option String) (rest : List Response) :
    get_game_stats ((⟨some [], m, aw⟩ : Response) :: rest)
        = get_game_stats ((⟨none, m, aw'⟩ : Response) :: rest)
    ∧ get_game_stats
        ((⟨some [], some "Rate limit exceeded.", aw⟩ : Response) :: rest)
        = get_game_stats rest
    ∧ ∀ s : PlayerCountStats,
        get_game_stats [(⟨some [], m, aw⟩ : Response)] ≠ .ok s := by
  refine ⟨rfl, by simp [get_game_stats, truthyNums], ?_⟩
  intro s
  have h1 : get_game_stats [(⟨some [], m, aw⟩ : Response)]
      = get_game_stats [(⟨none, m, aw⟩ : Response)] := rfl
  rw [h1]
  cases m with
  | none => intro hs; exact Except.noConfusion hs
  | some t =>
    by_cases ht : t = "Rate limit exceeded."
    · subst ht
      have h2 : get_game_stats
          [(⟨none, some "Rate limit exceeded.", aw⟩ : Response)]
          = .error .exhausted := by
        simp [get_game_stats, truthyNums]
      rw [h2]
      intro hs
      exact Except.noConfusion hs
    · have h2 : get_game_stats [(⟨none, some t, aw⟩ : Response)]
          = .error .unexpectedMessage := by
        simp only [get_game_stats, truthyNums]
        simp [ht]
      rw [h2]
      intro hs
      exact Except.noConfusion hs

/-- Witness for C8 at a concrete best-dominant entry. -/
theorem C8_entry_feeds_at_most_one_set_witness :
    ∃ counts : List Int, parseCounts "2" = .ok counts
      ∧ (((({2} : Finset Int) = ∅ ∪ counts.toFinset ∧ (∅ : Finset Int) = ∅)
        ∨ (({2} : Finset Int) = ∅ ∧ (∅ : Finset Int) = ∅ ∪ counts.toFinset)
        ∨ (({2} : Finset Int) = ∅ ∧ (∅ : Finset Int) = ∅))) :=
  C8_entry_feeds_at_most_one_set
    ⟨"2", [⟨"Best", "3"⟩, ⟨"Recommended", "1"⟩]⟩ ∅ ∅ {2} ∅ (by decide)

/-- C4 counterexample: a response that does contain the player-count
element, but with zero child entries, does not stop the retry loop — the
code re-enters the rate-limit branch instead of returning the stats parsed
from that response (here the parse would have yielded empty sets with
weight "3.0", but the loop polls on past the end of the stream). -/
theorem C4_counterexample :
    (Response.mk (some []) (some "Rate limit exceeded.") (some "3.0")).nums
        = some []
    ∧ get_game_stats [⟨some [], some "Rate limit exceeded.", some "3.0"⟩]
        = .error .exhausted
    ∧ parseResponse ⟨some [], some "Rate limit exceeded.", some "3.0"⟩
        = .ok ⟨∅, ∅, "3.0"⟩
    ∧ get_game_stats [⟨some [], some "Rate limit exceeded.", some "3.0"⟩]
        ≠ parseResponse ⟨some [], some "Rate limit exceeded.", some "3.0"⟩ :=
  ⟨rfl, by decide, by decide, by decide⟩

/-- C4 amended: for every finite run of responses that lack the
player-count element and carry exactly the message "Rate limit exceeded.",
followed by a response whose player-count element is present with at least
one child entry, fetchStats retries past every rate-limited response — no
retry cap, whatever the length of the run — and returns the stats parsed
from that first loop-breaking response. -/
theorem C4_retries_unbounded (pre : List Response)
    (hpre : ∀ resp ∈ pre,
      resp.nums = none ∧ resp.message = some "Rate limit exceeded.")
    (v : Response) (es : List PCEntry) (hv : v.nums = some es)
    (hes : es ≠ []) (rest : List Response) :
    get_game_stats (pre ++ v :: rest) = parseResponse v := by
  induction pre with
  | nil =>
    have htr : truthyNums v.nums = true := by
      rw [hv]
      cases es with
      | nil => exact absurd rfl hes
      | cons e es' => rfl
    simp only [List.nil_append, get_game_stats, htr, if_true]
  | cons p ps ih =>
    obtain ⟨hn, hm⟩ := hpre p (List.mem_cons_self p ps)
    have h2 : get_game_stats ((p :: ps) ++ v :: rest)
        = get_game_stats (ps ++ v :: rest) := by
      simp only [List.cons_append, get_game_stats, hn, hm, truthyNums]
      simp
    rw [h2]
    exact ih (fun r hr => hpre r (List.mem_cons_of_mem p hr))

/-- Witness for C4: the mock sequence rate-limit, rate-limit, success. -/
theorem C4_retries_unbounded_witness :
    get_game_stats
        [⟨none, some "Rate limit exceeded.", none⟩,
         ⟨none, some "Rate limit exceeded.", none⟩,
         ⟨some [⟨"4", [⟨"Best", "10"⟩, ⟨"Recommended", "3"⟩]⟩], none,
           some "3.86"⟩]
      = parseResponse
          ⟨some [⟨"4", [⟨"Best", "10"⟩, ⟨"Recommended", "3"⟩]⟩], none,
            some "3.86"⟩ :=
  C4_retries_unbounded
    [⟨none, some "Rate limit exceeded.", none⟩,
     ⟨none, some "Rate limit exceeded.", none⟩]
    (by decide)
    ⟨some [⟨"4", [⟨"Best", "10"⟩, ⟨"Recommended", "3"⟩]⟩], none, some "3.86"⟩
    [⟨"4", [⟨"Best", "10"⟩, ⟨"Recommended", "3"⟩]⟩] rfl (by decide) []

theorem processGames_ok (np : Int) (api : String → List Response)
    (S : Game → PlayerCountStats) (gs : List Game)
    (h : ∀ g ∈ gs, get_game_stats (api g.bgg_id) = .ok (S g)) :
    processGames np api gs
      = .ok (gs.filterMap (fun g => rowFor np g (S g))) := by
  induction gs with
  | nil => rfl
  | cons g gs ih =>
    simp only [processGames]
    rw [h g (List.mem_cons_self g gs),
      ih (fun g' hg' => h g' (List.mem_cons_of_mem g hg'))]
    simp only [List.filterMap_cons]
    cases hr : rowFor np g (S g) <;> simp [hr]

theorem runPages_cons_eq (np : Int) (pages : Nat → Option (List HtmlRow))
    (api : String → List Response) (p : Nat) (ps : List Nat)
    (games : List Game) (rows rest : List ReportRow)
    (h1 : get_page_of_games (pages p) = .ok games)
    (h2 : processGames np api games = .ok rows)
    (h3 : runPages np pages api ps = .ok rest) :
    runPages np pages api (p :: ps) = .ok (rows ++ rest) := by
  simp only [runPages, h1, h2, h3]

theorem runPages_ok (np : Int) (pages : Nat → Option (List HtmlRow))
    (api : String → List Response) (G : Nat → List Game)
    (S : Game → PlayerCountStats) (l : List Nat)
    (hG : ∀ p ∈ l, get_page_of_games (pages p) = .ok (G p))
    (hS : ∀ p ∈ l, ∀ g ∈ G p, get_game_stats (api g.bgg_id) = .ok (S g)) :
    runPages np pages api l = .ok (pipelineSpec np (l.map G) S) := by
  induction l with
  | nil => rfl
  | cons p ps ih =>
    rw [runPages_cons_eq np pages api p ps (G p) _ _
      (hG p (List.mem_cons_self p ps))
      (processGames_ok np api S (G p) (hS p (List.mem_cons_self p ps)))
      (ih (fun p' hp' => hG p' (List.mem_cons_of_mem p hp'))
        (fun p' hp' => hS p' (List.mem_cons_of_mem p hp')))]
    simp only [pipelineSpec, List.map_cons, List.foldr_cons,
      List.filterMap_append]

/-- C7: when every page fetch and every stats fetch succeeds, the pipeline
output equals the spec-side description `pipelineSpec`: pages 1 through
numPages are visited in order, each page's stubs in order, exactly one row
is emitted per game whose target count is in bestCounts (BEST) or, failing
that, in recommendedCounts (RECOMMENDED) and no row otherwise, and the
rows appear in page-then-row order with no sorting, deduplication or
cross-page aggregation. -/
theorem C7_pipeline_is_ordered_filter (np : Int) (num_pages : Nat)
    (pages : Nat → Option (List HtmlRow)) (api : String → List Response)
    (G : Nat → List Game) (S : Game → PlayerCountStats)
    (hG : ∀ p ∈ List.range' 1 num_pages,
      get_page_of_games (pages p) = .ok (G p))
    (hS : ∀ p ∈ List.range' 1 num_pages, ∀ g ∈ G p,
      get_game_stats (api g.bgg_id) = .ok (S g)) :
    main_model np num_pages pages api
      = .ok (pipelineSpec np ((List.range' 1 num_pages).map G) S) :=
  runPages_ok np pages api G S (List.range' 1 num_pages) hG hS

/-- Witness for C7: one page holding a header row and one data row for a
game whose stats make the target count 4 BEST. -/
theorem C7_pipeline_is_ordered_filter_witness :
    main_model 4 1
        (fun _ => some [⟨"", "", "", ""⟩,
          ⟨"1", "/boardgame/174430/gloomhaven", "Gloomhaven", "(2017)"⟩])
        (fun _ => [⟨some [⟨"4", [⟨"Best", "10"⟩, ⟨"Recommended", "3"⟩]⟩],
          none, some "3.86"⟩])
      = .ok (pipelineSpec 4
          ((List.range' 1 1).map (fun _ =>
            [mkGame ⟨"1", "/boardgame/174430/gloomhaven", "Gloomhaven",
              "(2017)"⟩]))
          (fun _ => ⟨{4}, ∅, "3.86"⟩)) :=
  C7_pipeline_is_ordered_filter 4 1
    (fun _ => some [⟨"", "", "", ""⟩,
      ⟨"1", "/boardgame/174430/gloomhaven", "Gloomhaven", "(2017)"⟩])
    (fun _ => [⟨some [⟨"4", [⟨"Best", "10"⟩, ⟨"Recommended", "3"⟩]⟩],
      none, some "3.86"⟩])
    (fun _ => [mkGame ⟨"1", "/boardgame/174430/gloomhaven", "Gloomhaven",
      "(2017)"⟩])
    (fun _ => ⟨{4}, ∅, "3.86"⟩)
    (fun p _ => rfl)
    (fun p _ g _ => by
      have h : get_game_stats
          [⟨some [⟨"4", [⟨"Best", "10"⟩, ⟨"Recommended", "3"⟩]⟩], none,
            some "3.86"⟩]
          = .ok (⟨{4}, ∅, "3.86"⟩ : PlayerCountStats) := by decide
      exact h)

end BGG
